import Mathlib

/-!
Shallow embedding of the gilrs XInput (Windows) backend and the default stub
backend: `src/platform/windows/gamepad.rs` and `src/platform/default/gamepad.rs`.

Machine integers are modelled as `Nat` (u8/u16/u32) and `Int` (i16/i32);
`f32` values produced by the backend are modelled as exact rationals (`ℚ`),
i.e. real-number semantics of the same arithmetic expressions.
Types referenced from sibling modules that are not part of the two source
files (`ev::Event`, `ev::EventType`, `ev::Button`, `ev::Axis`,
`ev::state::AxisInfo`, `gamepad::Status`) are modelled from their use sites
and the spec's data model.  The XInput constants come from the `winapi`
crate (the documented Windows XInput API values).
-/

namespace XInput

/-- Connection status of a gamepad slot (`gamepad::Status`). -/
inductive Status where
  | Connected
  | Disconnected
  | NotObserved
deriving DecidableEq, Repr

/-- Abstract button identifiers (`ev::Button`), restricted to the
constructors this backend mentions. -/
inductive Button where
  | South
  | East
  | North
  | West
  | LeftTrigger
  | RightTrigger
  | Select
  | Start
  | Mode
  | LeftThumb
  | RightThumb
  | DPadUp
  | DPadDown
  | DPadLeft
  | DPadRight
deriving DecidableEq, Repr

/-- Abstract axis identifiers (`ev::Axis`), restricted to the constructors
this backend mentions. -/
inductive Axis where
  | LeftStickX
  | LeftStickY
  | RightStickX
  | RightStickY
  | LeftTrigger2
  | RightTrigger2
deriving DecidableEq, Repr

/-- `ev::EventType`; native codes are u16, axis values f32 (modelled `ℚ`). -/
inductive EventType where
  | Connected
  | Disconnected
  | ButtonPressed (b : Button) (code : Nat)
  | ButtonReleased (b : Button) (code : Nat)
  | AxisChanged (a : Axis) (value : ℚ) (code : Nat)
deriving DecidableEq, Repr

/-- `ev::Event` as built by `Event::new(id, event)`. -/
structure Event where
  id : Nat
  event : EventType
deriving DecidableEq, Repr

/-- The raw XInput controller snapshot `XINPUT_GAMEPAD`:
`wButtons : u16`, `bLeftTrigger bRightTrigger : u8`, thumb sticks `i16`. -/
structure XGamepad where
  wButtons : Nat
  bLeftTrigger : Nat
  bRightTrigger : Nat
  sThumbLX : Int
  sThumbLY : Int
  sThumbRX : Int
  sThumbRY : Int
deriving DecidableEq, Repr

/-- `XINPUT_STATE`: packet number (u32) plus the gamepad snapshot. -/
structure XState where
  dwPacketNumber : Nat
  Gamepad : XGamepad
deriving DecidableEq, Repr

/-- The all-zero snapshot, `mem::zeroed::<XState>()`. -/
def zeroPad : XGamepad := ⟨0, 0, 0, 0, 0, 0, 0⟩

/-- The all-zero state, `mem::zeroed::<XState>()`. -/
def zeroState : XState := ⟨0, zeroPad⟩

/- Windows XInput API button masks (from the `winapi` crate). -/

def XINPUT_GAMEPAD_DPAD_UP : Nat := 1

def XINPUT_GAMEPAD_DPAD_DOWN : Nat := 2

def XINPUT_GAMEPAD_DPAD_LEFT : Nat := 4

def XINPUT_GAMEPAD_DPAD_RIGHT : Nat := 8

def XINPUT_GAMEPAD_START : Nat := 16

def XINPUT_GAMEPAD_BACK : Nat := 32

def XINPUT_GAMEPAD_LEFT_THUMB : Nat := 64

def XINPUT_GAMEPAD_RIGHT_THUMB : Nat := 128

def XINPUT_GAMEPAD_LEFT_SHOULDER : Nat := 256

def XINPUT_GAMEPAD_RIGHT_SHOULDER : Nat := 512

def XINPUT_GAMEPAD_A : Nat := 4096

def XINPUT_GAMEPAD_B : Nat := 8192

def XINPUT_GAMEPAD_X : Nat := 16384

def XINPUT_GAMEPAD_Y : Nat := 32768

/- Windows XInput API deadzone constants (from the `winapi` crate). -/

def XINPUT_GAMEPAD_LEFT_THUMB_DEADZONE : Nat := 7849

def XINPUT_GAMEPAD_RIGHT_THUMB_DEADZONE : Nat := 8689

def XINPUT_GAMEPAD_TRIGGER_THRESHOLD : Nat := 30

/- `native_ev_codes` of the windows backend (identical numbering in the
default backend). -/

def BTN_SOUTH : Nat := 0

def BTN_EAST : Nat := 1

def BTN_C : Nat := 2

def BTN_NORTH : Nat := 3

def BTN_WEST : Nat := 4

def BTN_Z : Nat := 5

def BTN_LT : Nat := 6

def BTN_RT : Nat := 7

def BTN_LT2 : Nat := 8

def BTN_RT2 : Nat := 9

def BTN_SELECT : Nat := 10

def BTN_START : Nat := 11

def BTN_MODE : Nat := 12

def BTN_LTHUMB : Nat := 13

def BTN_RTHUMB : Nat := 14

def BTN_DPAD_UP : Nat := 15

def BTN_DPAD_DOWN : Nat := 16

def BTN_DPAD_LEFT : Nat := 17

def BTN_DPAD_RIGHT : Nat := 18

def AXIS_LSTICKX : Nat := 0

def AXIS_LSTICKY : Nat := 1

def AXIS_LEFTZ : Nat := 2

def AXIS_RSTICKX : Nat := 3

def AXIS_RSTICKY : Nat := 4

def AXIS_RIGHTZ : Nat := 5

def AXIS_DPADX : Nat := 6

def AXIS_DPADY : Nat := 7

def AXIS_RT : Nat := 8

def AXIS_LT : Nat := 9

def AXIS_RT2 : Nat := 10

def AXIS_LT2 : Nat := 11

/-- `native_ev_codes::BUTTONS`: the declared button-code capability list. -/
def BUTTONS : List Nat :=
  [BTN_SOUTH, BTN_EAST, BTN_NORTH, BTN_WEST, BTN_LT, BTN_RT, BTN_SELECT,
   BTN_START, BTN_MODE, BTN_LTHUMB, BTN_RTHUMB, BTN_DPAD_UP, BTN_DPAD_DOWN,
   BTN_DPAD_LEFT, BTN_DPAD_RIGHT]

/-- `native_ev_codes::AXES`: the declared axis-code capability list. -/
def AXES : List Nat :=
  [AXIS_LSTICKX, AXIS_LSTICKY, AXIS_RSTICKX, AXIS_RSTICKY, AXIS_RT2, AXIS_LT2]

/-- `ev::state::AxisInfo` (i32 bounds, u32 deadzone). -/
structure AxisInfo where
  min : Int
  max : Int
  deadzone : Nat
deriving DecidableEq, Repr

/-- `native_ev_codes::AXES_INFO`: per-axis-code calibration metadata. -/
def AXES_INFO : List (Option AxisInfo) :=
  [some ⟨-32768, 32767, XINPUT_GAMEPAD_LEFT_THUMB_DEADZONE⟩,
   some ⟨-32768, 32767, XINPUT_GAMEPAD_LEFT_THUMB_DEADZONE⟩,
   none,
   some ⟨-32768, 32767, XINPUT_GAMEPAD_RIGHT_THUMB_DEADZONE⟩,
   some ⟨-32768, 32767, XINPUT_GAMEPAD_RIGHT_THUMB_DEADZONE⟩,
   none,
   none,
   none,
   none,
   none,
   some ⟨0, 255, XINPUT_GAMEPAD_TRIGGER_THRESHOLD⟩,
   some ⟨0, 255, XINPUT_GAMEPAD_TRIGGER_THRESHOLD⟩]

/-- `Gamepad::axis_info(nec)`: `AXES_INFO.get(nec).and_then(|o| o.as_ref())`. -/
def axis_info (nec : Nat) : Option AxisInfo :=
  (AXES_INFO[nec]?).bind id

/-- `is_mask_eq(l, r, mask)`: the two bitmasks agree on `mask`. -/
def is_mask_eq (l r mask : Nat) : Bool :=
  decide (l &&& mask ≠ 0) == decide (r &&& mask ≠ 0)

/-- The local `normalize` inside `compare_state`:
`val as f32 / if val < 0 \x7b -(i16::MIN as i32) \x7d else \x7b i16::MAX as i32 \x7d as f32`. -/
def normalize (val : Int) : ℚ :=
  (val : ℚ) / (if val < 0 then 32768 else 32767)

/-- The trigger-axis value `raw as f32 / u8::MAX as f32`. -/
def triggerValue (raw : Nat) : ℚ :=
  (raw : ℚ) / 255

/-- One button comparison block of `compare_state`: an event is sent iff the
button's single bit differs, `ButtonPressed` iff the bit is set in `cur`. -/
def btnSeg (id : Nat) (cur prev mask : Nat) (b : Button) (code : Nat) :
    List Event :=
  if is_mask_eq cur prev mask then []
  else if cur &&& mask ≠ 0 then [⟨id, .ButtonPressed b code⟩]
  else [⟨id, .ButtonReleased b code⟩]

/-- The fourteen `(mask, button, native code)` bindings, in the exact order
`compare_state` checks them. -/
def BUTTON_BINDINGS : List (Nat × Button × Nat) :=
  [(XINPUT_GAMEPAD_DPAD_UP, Button.DPadUp, BTN_DPAD_UP),
   (XINPUT_GAMEPAD_DPAD_DOWN, Button.DPadDown, BTN_DPAD_DOWN),
   (XINPUT_GAMEPAD_DPAD_LEFT, Button.DPadLeft, BTN_DPAD_LEFT),
   (XINPUT_GAMEPAD_DPAD_RIGHT, Button.DPadRight, BTN_DPAD_RIGHT),
   (XINPUT_GAMEPAD_START, Button.Start, BTN_START),
   (XINPUT_GAMEPAD_BACK, Button.Select, BTN_SELECT),
   (XINPUT_GAMEPAD_LEFT_THUMB, Button.LeftThumb, BTN_LTHUMB),
   (XINPUT_GAMEPAD_RIGHT_THUMB, Button.RightThumb, BTN_RTHUMB),
   (XINPUT_GAMEPAD_LEFT_SHOULDER, Button.LeftTrigger, BTN_LT),
   (XINPUT_GAMEPAD_RIGHT_SHOULDER, Button.RightTrigger, BTN_RT),
   (XINPUT_GAMEPAD_A, Button.South, BTN_SOUTH),
   (XINPUT_GAMEPAD_B, Button.East, BTN_EAST),
   (XINPUT_GAMEPAD_X, Button.West, BTN_WEST),
   (XINPUT_GAMEPAD_Y, Button.North, BTN_NORTH)]

/-- The axis comparison blocks of `compare_state`, in source order:
LeftTrigger2, RightTrigger2, LeftStickX, LeftStickY, RightStickX,
RightStickY.  Each block sends one `AxisChanged` iff the raw readings
differ. -/
def axisPart (id : Nat) (g pg : XGamepad) : List Event :=
  (if g.bLeftTrigger ≠ pg.bLeftTrigger then
    [⟨id, .AxisChanged .LeftTrigger2 (triggerValue g.bLeftTrigger) AXIS_LT2⟩]
   else []) ++
  (if g.bRightTrigger ≠ pg.bRightTrigger then
    [⟨id, .AxisChanged .RightTrigger2 (triggerValue g.bRightTrigger) AXIS_RT2⟩]
   else []) ++
  (if g.sThumbLX ≠ pg.sThumbLX then
    [⟨id, .AxisChanged .LeftStickX (normalize g.sThumbLX) AXIS_LSTICKX⟩]
   else []) ++
  (if g.sThumbLY ≠ pg.sThumbLY then
    [⟨id, .AxisChanged .LeftStickY (normalize g.sThumbLY) AXIS_LSTICKY⟩]
   else []) ++
  (if g.sThumbRX ≠ pg.sThumbRX then
    [⟨id, .AxisChanged .RightStickX (normalize g.sThumbRX) AXIS_RSTICKX⟩]
   else []) ++
  (if g.sThumbRY ≠ pg.sThumbRY then
    [⟨id, .AxisChanged .RightStickY (normalize g.sThumbRY) AXIS_RSTICKY⟩]
   else [])

/-- The button comparison blocks of `compare_state`, in source order. -/
def buttonPart (id : Nat) (cur prev : Nat) : List Event :=
  BUTTON_BINDINGS.flatMap (fun t => btnSeg id cur prev t.1 t.2.1 t.2.2)

/-- `Gilrs::compare_state(id, g, pg, tx)`: the ordered list of events sent
on the channel — the six axis blocks followed by the fourteen button
blocks. -/
def compare_state (id : Nat) (g pg : XGamepad) : List Event :=
  axisPart id g pg ++ buttonPart id g.wButtons pg.wButtons

/-- Outcome of one `XInputGetState` call, as the polling thread
discriminates it: `ERROR_SUCCESS` (with the written state), the specific
`ERROR_DEVICE_NOT_CONNECTED`, or any other error code. -/
inductive Query where
  | success (s : XState)
  | notConnected
  | transientError
deriving DecidableEq, Repr

def ITERATIONS_TO_CHECK_IF_CONNECTED : Nat := 100

/-- Result of processing one slot in the polling loop body: the updated
`connected` flag for the slot, the (single, shared) `prev_state` variable,
the events sent, and a ghost trace of `compare_state` invocations as
`(slot, current snapshot, previous snapshot)` triples. -/
structure SlotOut where
  conn : Bool
  prev : XState
  events : List Event
  diffCalls : List (Nat × XGamepad × XGamepad)
deriving DecidableEq, Repr

/-- The body of `Gilrs::spawn_thread` for one slot whose query ran:
on success, emit `Connected` if the slot was not connected, then diff
against `prev_state` iff the packet number changed (and only then replace
`prev_state`); on `ERROR_DEVICE_NOT_CONNECTED`, emit `Disconnected` iff the
slot was connected; on any other error, do nothing. -/
def slotStep (id : Nat) (q : Query) (conn : Bool) (prev : XState) : SlotOut :=
  match q with
  | .success state =>
    let connEvents : Bool × List Event :=
      if !conn then (true, [⟨id, .Connected⟩]) else (conn, [])
    if state.dwPacketNumber ≠ prev.dwPacketNumber then
      ⟨connEvents.1, state,
       connEvents.2 ++ compare_state id state.Gamepad prev.Gamepad,
       [(id, state.Gamepad, prev.Gamepad)]⟩
    else
      ⟨connEvents.1, prev, connEvents.2, []⟩
  | .notConnected =>
    if conn then ⟨false, prev, [⟨id, .Disconnected⟩], []⟩
    else ⟨conn, prev, [], []⟩
  | .transientError => ⟨conn, prev, [], []⟩

/-- State of the polling thread between iterations of its infinite loop:
the single shared `prev_state`, the four `connected` flags, and the cycle
counter. -/
structure LoopState where
  prev_state : XState
  connected : List Bool
  counter : Nat
deriving DecidableEq, Repr

/-- Accumulator for one iteration of the polling loop. -/
structure CycleOut where
  st : LoopState
  events : List Event
  diffCalls : List (Nat × XGamepad × XGamepad)
deriving DecidableEq, Repr

/-- One `for id in 0..4` step: the slot is visited only if it is connected
or `counter % ITERATIONS_TO_CHECK_IF_CONNECTED == 0`. -/
def slotVisit (q : Query) (id : Nat) (acc : CycleOut) : CycleOut :=
  if acc.st.connected.getD id false
      || acc.st.counter % ITERATIONS_TO_CHECK_IF_CONNECTED == 0 then
    let out := slotStep id q (acc.st.connected.getD id false) acc.st.prev_state
    ⟨⟨out.prev, acc.st.connected.set id out.conn, acc.st.counter⟩,
     acc.events ++ out.events, acc.diffCalls ++ out.diffCalls⟩
  else acc

/-- One full iteration of the polling loop in `Gilrs::spawn_thread`: visit
slots 0..3 in order (threading the shared `prev_state`), then
`counter = counter.wrapping_add(1)` (u64). -/
def cycle (queries : Nat → Query) (st : LoopState) : CycleOut :=
  let a := slotVisit (queries 3) 3 (slotVisit (queries 2) 2
    (slotVisit (queries 1) 1 (slotVisit (queries 0) 0 ⟨st, [], []⟩)))
  ⟨⟨a.st.prev_state, a.st.connected, (a.st.counter + 1) % 2 ^ 64⟩,
   a.events, a.diffCalls⟩

/-- The consumer-facing queue state of the windows `Gilrs`: the
`additional_events` prelude deque and the polling channel's buffered
events (`rx`). -/
structure QueueState where
  additional_events : List Event
  rx : List Event
deriving DecidableEq, Repr

/-- `Gilrs::next_event`: pop the prelude deque first; only when it is empty
try to receive from the polling channel. -/
def next_event (s : QueueState) : Option Event × QueueState :=
  match s.additional_events with
  | e :: rest => (some e, ⟨rest, s.rx⟩)
  | [] =>
    match s.rx with
    | e :: rest => (some e, ⟨[], rest⟩)
    | [] => (none, ⟨[], []⟩)

/-- The prelude built in `Gilrs::new`: one `Connected` event per slot whose
construction-time probe found a device, by enumerate-filter-map. -/
def preludeEvents (connected : List Bool) : List Event :=
  ((connected.enum).filter (fun p => p.2)).map (fun p => ⟨p.1, .Connected⟩)

/-- Drain up to `n` events from the queue state by iterating
`next_event`. -/
def drainN : Nat → QueueState → List Event
  | 0, _ => []
  | n + 1, s =>
    match next_event s with
    | (none, _) => []
    | (some e, s2) => e :: drainN n s2

/-- The windows platform `Gamepad` (uuid modelled as `Nat`, nil = 0). -/
structure WGamepad where
  uuid : Nat
  id : Nat
deriving DecidableEq, Repr

/-- `Gamepad::none()`: nil uuid and `u32::MAX` id. -/
def WGamepad.none : WGamepad := ⟨0, 4294967295⟩

/-- The windows `Gamepad::name` is the fixed string. -/
def WGamepad.name (_ : WGamepad) : String := "Xbox Controller"

/-- The windows `Gamepad::is_ff_supported` is constant `true`. -/
def WGamepad.is_ff_supported (_ : WGamepad) : Bool := true

/-- `gamepad::Gamepad::from_inner_status`: platform gamepad plus status. -/
structure GamepadHandle where
  inner : WGamepad
  status : Status
deriving DecidableEq, Repr

/-- `gamepad_new(id)`: nil uuid, given id; status `Connected` iff the
construction-time `XInputGetState` probe succeeded. -/
def gamepad_new (id : Nat) (probeSuccess : Bool) : GamepadHandle :=
  ⟨⟨0, id⟩, if probeSuccess then .Connected else .NotObserved⟩

/-- The registry part of the windows `Gilrs`. -/
structure WinGilrs where
  gamepads : List GamepadHandle
  not_observed : GamepadHandle
deriving DecidableEq, Repr

/-- The registry as built by the windows `Gilrs::new`, abstracting the four
probe outcomes. -/
def WinGilrs.new (probe : Nat → Bool) : WinGilrs :=
  ⟨[gamepad_new 0 (probe 0), gamepad_new 1 (probe 1), gamepad_new 2 (probe 2),
    gamepad_new 3 (probe 3)],
   ⟨WGamepad.none, .NotObserved⟩⟩

/-- The windows `Gilrs::gamepad`:
`self.gamepads.get(id).unwrap_or(&self.not_observed)`. -/
def WinGilrs.gamepad (g : WinGilrs) (id : Nat) : GamepadHandle :=
  (g.gamepads[id]?).getD g.not_observed

/-- The default (stub) platform `Gamepad`. -/
structure DGamepad where
  name : String
  uuid : Nat
deriving DecidableEq, Repr

/-- The stub `Gamepad::none()`: empty name, nil uuid. -/
def DGamepad.none : DGamepad := ⟨"", 0⟩

/-- The stub `Gamepad::max_ff_effects` is constant `0`. -/
def DGamepad.max_ff_effects (_ : DGamepad) : Nat := 0

/-- The stub `Gamepad::is_ff_supported` is constant `false`. -/
def DGamepad.is_ff_supported (_ : DGamepad) : Bool := false

/-- Stub backend handle: platform gamepad plus status. -/
structure DGamepadHandle where
  inner : DGamepad
  status : Status
deriving DecidableEq, Repr

/-- The stub `Gilrs`: only the shared `not_observed` placeholder. -/
structure DGilrs where
  not_observed : DGamepadHandle
deriving DecidableEq, Repr

/-- The stub `Gilrs::new`. -/
def DGilrs.new : DGilrs := ⟨⟨DGamepad.none, .NotObserved⟩⟩

/-- The stub `Gilrs::gamepad`: every index resolves to the placeholder. -/
def DGilrs.gamepad (g : DGilrs) (_ : Nat) : DGamepadHandle :=
  g.not_observed

/-- An event is an `AxisChanged` event. -/
def isAxisEv (e : Event) : Bool :=
  match e.event with
  | .AxisChanged _ _ _ => true
  | _ => false

/-- An event is a `ButtonPressed` or `ButtonReleased` event. -/
def isButtonEv (e : Event) : Bool :=
  match e.event with
  | .ButtonPressed _ _ => true
  | .ButtonReleased _ _ => true
  | _ => false

/-- An event is a `Connected` event. -/
def isConnectedEv (e : Event) : Bool :=
  match e.event with
  | .Connected => true
  | _ => false

/-- The native code carried by a button or axis event. -/
def evCode (e : Event) : Option Nat :=
  match e.event with
  | .ButtonPressed _ c => some c
  | .ButtonReleased _ c => some c
  | .AxisChanged _ _ c => some c
  | _ => none

/- Helper lemmas about the diff segments. -/

theorem mem_ite_singleton {α : Type} (c : Prop) [Decidable c] (x a : α) :
    a ∈ (if c then [x] else []) ↔ c ∧ a = x := by
  split <;> simp_all

theorem btnSeg_mem {id cur prev mask : Nat} {b : Button} {code : Nat}
    {e : Event} (h : e ∈ btnSeg id cur prev mask b code) :
    (e = ⟨id, .ButtonPressed b code⟩ ∨ e = ⟨id, .ButtonReleased b code⟩)
      ∧ is_mask_eq cur prev mask = false := by
  unfold btnSeg at h
  split at h
  · simp at h
  · rename_i hm
    split at h <;> simp_all

theorem btnSeg_length (id cur prev mask : Nat) (b : Button) (code : Nat) :
    (btnSeg id cur prev mask b code).length =
      if is_mask_eq cur prev mask then 0 else 1 := by
  unfold btnSeg
  split
  · rfl
  · split <;> rfl

theorem btnSeg_self (id cur mask : Nat) (b : Button) (code : Nat) :
    btnSeg id cur cur mask b code = [] := by
  unfold btnSeg
  rw [if_pos]
  simp [is_mask_eq]

theorem btnSeg_code_sublist (id cur prev mask : Nat) (b : Button) (code : Nat) :
    List.Sublist ((btnSeg id cur prev mask b code).map evCode) [some code] := by
  unfold btnSeg
  split
  · exact List.nil_sublist _
  · split <;> simp [evCode]

theorem buttonPart_mem {id cur prev : Nat} {e : Event}
    (h : e ∈ buttonPart id cur prev) :
    ∃ t ∈ BUTTON_BINDINGS,
      (e = ⟨id, .ButtonPressed t.2.1 t.2.2⟩ ∨
        e = ⟨id, .ButtonReleased t.2.1 t.2.2⟩)
      ∧ is_mask_eq cur prev t.1 = false := by
  obtain ⟨t, ht, h2⟩ := List.mem_flatMap.mp h
  exact ⟨t, ht, btnSeg_mem h2⟩

theorem buttonPart_isButton {id cur prev : Nat} {e : Event}
    (h : e ∈ buttonPart id cur prev) : isButtonEv e = true := by
  obtain ⟨t, _, h2 | h2, _⟩ := buttonPart_mem h <;> subst h2 <;> rfl

theorem axisPart_mem {id : Nat} {g pg : XGamepad} {e : Event}
    (h : e ∈ axisPart id g pg) :
    (g.bLeftTrigger ≠ pg.bLeftTrigger ∧
      e = ⟨id, .AxisChanged .LeftTrigger2 (triggerValue g.bLeftTrigger) AXIS_LT2⟩) ∨
    (g.bRightTrigger ≠ pg.bRightTrigger ∧
      e = ⟨id, .AxisChanged .RightTrigger2 (triggerValue g.bRightTrigger) AXIS_RT2⟩) ∨
    (g.sThumbLX ≠ pg.sThumbLX ∧
      e = ⟨id, .AxisChanged .LeftStickX (normalize g.sThumbLX) AXIS_LSTICKX⟩) ∨
    (g.sThumbLY ≠ pg.sThumbLY ∧
      e = ⟨id, .AxisChanged .LeftStickY (normalize g.sThumbLY) AXIS_LSTICKY⟩) ∨
    (g.sThumbRX ≠ pg.sThumbRX ∧
      e = ⟨id, .AxisChanged .RightStickX (normalize g.sThumbRX) AXIS_RSTICKX⟩) ∨
    (g.sThumbRY ≠ pg.sThumbRY ∧
      e = ⟨id, .AxisChanged .RightStickY (normalize g.sThumbRY) AXIS_RSTICKY⟩) := by
  simpa [axisPart, List.mem_append, mem_ite_singleton] using h

theorem axisPart_isAxis {id : Nat} {g pg : XGamepad} {e : Event}
    (h : e ∈ axisPart id g pg) : isAxisEv e = true := by
  rcases axisPart_mem h with ⟨_, rfl⟩ | ⟨_, rfl⟩ | ⟨_, rfl⟩ | ⟨_, rfl⟩ |
    ⟨_, rfl⟩ | ⟨_, rfl⟩ <;> rfl

theorem isAxis_not_isButton {e : Event} (h : isAxisEv e = true) :
    isButtonEv e = false := by
  unfold isAxisEv at h
  unfold isButtonEv
  split at h <;> simp_all

theorem compare_state_filter_axis (id : Nat) (g pg : XGamepad) :
    (compare_state id g pg).filter isAxisEv = axisPart id g pg := by
  unfold compare_state
  rw [List.filter_append]
  rw [List.filter_eq_self.mpr (fun e he => axisPart_isAxis he)]
  rw [List.filter_eq_nil_iff.mpr, List.append_nil]
  intro e he
  have hb := buttonPart_isButton he
  rcases e with ⟨i, ev⟩
  cases ev <;> simp_all [isAxisEv, isButtonEv]

theorem compare_state_filter_button (id : Nat) (g pg : XGamepad) :
    (compare_state id g pg).filter isButtonEv =
      buttonPart id g.wButtons pg.wButtons := by
  unfold compare_state
  rw [List.filter_append]
  rw [List.filter_eq_self.mpr (fun e he => buttonPart_isButton he)]
  rw [List.filter_eq_nil_iff.mpr, List.nil_append]
  intro e he
  simp [isAxis_not_isButton (axisPart_isAxis he)]

theorem flatMap_btnSeg_length (L : List (Nat × Button × Nat))
    (id cur prev : Nat) :
    (L.flatMap (fun t => btnSeg id cur prev t.1 t.2.1 t.2.2)).length =
      (L.filter (fun t => !is_mask_eq cur prev t.1)).length := by
  induction L with
  | nil => rfl
  | cons h t ih =>
    rw [List.flatMap_cons, List.length_append, ih, List.filter_cons]
    rw [btnSeg_length]
    by_cases hm : is_mask_eq cur prev h.1
    · simp [hm]
    · simp [hm]
      omega

theorem buttonPart_length (id cur prev : Nat) :
    (buttonPart id cur prev).length =
      (BUTTON_BINDINGS.filter (fun t => !is_mask_eq cur prev t.1)).length :=
  flatMap_btnSeg_length BUTTON_BINDINGS id cur prev

theorem flatMap_btnSeg_code_sublist (L : List (Nat × Button × Nat))
    (id cur prev : Nat) :
    List.Sublist ((L.flatMap (fun t => btnSeg id cur prev t.1 t.2.1 t.2.2)).map evCode)
      (L.map (fun t => some t.2.2)) := by
  induction L with
  | nil => exact List.Sublist.refl _
  | cons h t ih =>
    rw [List.flatMap_cons, List.map_append, List.map_cons]
    have h1 := btnSeg_code_sublist id cur prev h.1 h.2.1 h.2.2
    exact List.Sublist.append h1 ih

theorem ite_singleton_sublist {α : Type} (c : Prop) [Decidable c] (x : α) :
    List.Sublist (if c then [x] else []) [x] := by
  split
  · exact List.Sublist.refl _
  · exact List.nil_sublist _

theorem axisPart_code_sublist (id : Nat) (g pg : XGamepad) :
    List.Sublist ((axisPart id g pg).map evCode)
      [some AXIS_LT2, some AXIS_RT2, some AXIS_LSTICKX, some AXIS_LSTICKY,
        some AXIS_RSTICKX, some AXIS_RSTICKY] := by
  unfold axisPart
  simp only [List.map_append, apply_ite (List.map evCode), List.map_cons,
    List.map_nil, evCode]
  have hs : ∀ (c1 c2 c3 c4 c5 c6 : Prop) (i1 : Decidable c1) (i2 : Decidable c2)
      (i3 : Decidable c3) (i4 : Decidable c4) (i5 : Decidable c5)
      (i6 : Decidable c6) (x1 x2 x3 x4 x5 x6 : Option Nat),
      List.Sublist
        ((if c1 then [x1] else []) ++ (if c2 then [x2] else []) ++
          (if c3 then [x3] else []) ++ (if c4 then [x4] else []) ++
          (if c5 then [x5] else []) ++ (if c6 then [x6] else []))
        [x1, x2, x3, x4, x5, x6] := by
    intro c1 c2 c3 c4 c5 c6 i1 i2 i3 i4 i5 i6 x1 x2 x3 x4 x5 x6
    have e : [x1, x2, x3, x4, x5, x6] =
        [x1] ++ [x2] ++ [x3] ++ [x4] ++ [x5] ++ [x6] := rfl
    rw [e]
    exact List.Sublist.append (List.Sublist.append (List.Sublist.append
      (List.Sublist.append (List.Sublist.append
        (ite_singleton_sublist _ _) (ite_singleton_sublist _ _))
        (ite_singleton_sublist _ _)) (ite_singleton_sublist _ _))
      (ite_singleton_sublist _ _)) (ite_singleton_sublist _ _)
  exact hs _ _ _ _ _ _ _ _ _ _ _ _ _ _ _ _ _ _

theorem compare_state_self (id : Nat) (g : XGamepad) :
    compare_state id g g = [] := by
  unfold compare_state axisPart buttonPart
  simp [btnSeg_self]

theorem compare_state_not_connected {id : Nat} {g pg : XGamepad} {e : Event}
    (h : e ∈ compare_state id g pg) : isConnectedEv e = false := by
  rcases List.mem_append.mp h with ha | hb
  · rcases axisPart_mem ha with ⟨_, rfl⟩ | ⟨_, rfl⟩ | ⟨_, rfl⟩ | ⟨_, rfl⟩ |
      ⟨_, rfl⟩ | ⟨_, rfl⟩ <;> rfl
  · obtain ⟨t, _, h2 | h2, _⟩ := buttonPart_mem hb <;> subst h2 <;> rfl

/- Helper lemmas about the event queue and the startup prelude. -/

theorem drainN_eq_append :
    ∀ (n : Nat) (q rx : List Event), q.length + rx.length ≤ n →
      drainN n ⟨q, rx⟩ = q ++ rx := by
  intro n
  induction n with
  | zero =>
    intro q rx h
    rcases q with _ | ⟨e, q⟩
    · rcases rx with _ | ⟨e, rx⟩
      · rfl
      · simp at h
    · simp at h
  | succ n ih =>
    intro q rx h
    rcases q with _ | ⟨e, q⟩
    · rcases rx with _ | ⟨e, rx⟩
      · rfl
      · show e :: drainN n ⟨[], rx⟩ = e :: rx
        rw [ih [] rx (by simp at h ⊢; omega)]
        rfl
    · show e :: drainN n ⟨q, rx⟩ = e :: (q ++ rx)
      rw [ih q rx (by simp at h; omega)]

theorem mem_enumFrom_le {α : Type} :
    ∀ (c : List α) (n : Nat) (p : Nat × α), p ∈ c.enumFrom n → n ≤ p.1 := by
  intro c
  induction c with
  | nil => intro n p h; simp at h
  | cons b t ih =>
    intro n p h
    rcases List.mem_cons.mp h with h | h
    · subst h; exact Nat.le_refl _
    · exact Nat.le_of_succ_le (ih (n + 1) p h)

theorem enumFrom_pairwise {α : Type} :
    ∀ (c : List α) (n : Nat),
      (c.enumFrom n).Pairwise (fun p q => p.1 < q.1) := by
  intro c
  induction c with
  | nil => intro n; exact List.Pairwise.nil
  | cons b t ih =>
    intro n
    refine List.Pairwise.cons ?_ (ih (n + 1))
    intro p hp
    exact Nat.lt_of_succ_le (mem_enumFrom_le t (n + 1) p hp)

theorem preludeEvents_pairwise (connected : List Bool) :
    (preludeEvents connected).Pairwise (fun a b => a.id < b.id) := by
  unfold preludeEvents
  rw [List.pairwise_map]
  refine List.Pairwise.sublist (List.filter_sublist _) ?_
  rw [List.enum]
  exact enumFrom_pairwise connected 0

theorem preludeEvents_length_le (connected : List Bool) :
    (preludeEvents connected).length ≤ connected.length := by
  unfold preludeEvents
  rw [List.length_map]
  calc (List.filter (fun p => p.2) connected.enum).length
      ≤ connected.enum.length := List.length_filter_le _ _
    _ = connected.length := List.enum_length

/- Concrete snapshots and loop configurations used by counterexamples and
witnesses. -/

/-- Snapshot resting inside the left-stick deadzone: raw X reading 100,
magnitude (from center 0) far below the 7849 deadzone. -/
def gDeadzoneSmall : XGamepad := { zeroPad with sThumbLX := 100 }

/-- Snapshot with the A (South) button pressed. -/
def gSouth : XGamepad := { zeroPad with wButtons := XINPUT_GAMEPAD_A }

/-- Snapshot with the B (East) button pressed. -/
def gEast : XGamepad := { zeroPad with wButtons := XINPUT_GAMEPAD_B }

/-- Snapshot with left trigger at 100, left stick X at 1000, and both the
A (South) and D-Pad-Up buttons pressed. -/
def gMixed : XGamepad :=
  { zeroPad with
    bLeftTrigger := 100
    sThumbLX := 1000
    wButtons := XINPUT_GAMEPAD_A + XINPUT_GAMEPAD_DPAD_UP }

/-- The polling thread state right after `spawn_thread` starts with no slot
connected: zeroed `prev_state`, all-false `connected`, counter 0. -/
def initLoop : LoopState := ⟨zeroState, [false, false, false, false], 0⟩

/-- Query environment: slot 0 answers success (packet 1, A pressed),
every other slot reports device-not-connected. -/
def qConnectSouth : Nat → Query := fun i =>
  if i = 0 then .success ⟨1, gSouth⟩ else .notConnected

/-- Query environment: slot 0 answers success (packet 1, A pressed), slot 1
answers success (packet 2, B pressed), the rest device-not-connected. -/
def qTwoPads : Nat → Query := fun i =>
  if i = 0 then .success ⟨1, gSouth⟩
  else if i = 1 then .success ⟨2, gEast⟩
  else .notConnected

/- C1 -/

/-- C1 counterexample: the left-stick X axis is calibrated with deadzone
7849, the current raw reading 100 has magnitude below that deadzone, the
two snapshots differ only in that reading — yet `compare_state` emits an
`AxisChanged` event for the axis, so the claimed deadzone suppression does
not happen. -/
theorem c1_counterexample :
    axis_info AXIS_LSTICKX = some ⟨-32768, 32767, 7849⟩
    ∧ (100 : Int).natAbs < 7849
    ∧ compare_state 0 gDeadzoneSmall zeroPad =
        [⟨0, .AxisChanged .LeftStickX (normalize 100) AXIS_LSTICKX⟩] :=
  ⟨by decide, by decide, by rfl⟩

/-- C1 amended: `compare_state` never consults the deadzone — for every
calibrated axis it emits an `AxisChanged` event exactly when the raw
readings of the two snapshots differ, regardless of how small the current
reading's magnitude is; the `AXES_INFO` deadzones are only exposed as
metadata through `axis_info`. -/
theorem c1_axis_event_iff_raw_change (id : Nat) (g pg : XGamepad) :
    ((∃ v, (⟨id, .AxisChanged .LeftStickX v AXIS_LSTICKX⟩ : Event) ∈
        compare_state id g pg) ↔ g.sThumbLX ≠ pg.sThumbLX)
    ∧ ((∃ v, (⟨id, .AxisChanged .LeftStickY v AXIS_LSTICKY⟩ : Event) ∈
        compare_state id g pg) ↔ g.sThumbLY ≠ pg.sThumbLY)
    ∧ ((∃ v, (⟨id, .AxisChanged .RightStickX v AXIS_RSTICKX⟩ : Event) ∈
        compare_state id g pg) ↔ g.sThumbRX ≠ pg.sThumbRX)
    ∧ ((∃ v, (⟨id, .AxisChanged .RightStickY v AXIS_RSTICKY⟩ : Event) ∈
        compare_state id g pg) ↔ g.sThumbRY ≠ pg.sThumbRY)
    ∧ ((∃ v, (⟨id, .AxisChanged .LeftTrigger2 v AXIS_LT2⟩ : Event) ∈
        compare_state id g pg) ↔ g.bLeftTrigger ≠ pg.bLeftTrigger)
    ∧ ((∃ v, (⟨id, .AxisChanged .RightTrigger2 v AXIS_RT2⟩ : Event) ∈
        compare_state id g pg) ↔ g.bRightTrigger ≠ pg.bRightTrigger) := by
  have hnb : ∀ (a : Axis) (v : ℚ) (c : Nat),
      (⟨id, .AxisChanged a v c⟩ : Event) ∉
        buttonPart id g.wButtons pg.wButtons := by
    intro a v c h
    obtain ⟨t, _, h2 | h2, _⟩ := buttonPart_mem h <;> simp at h2
  have hsplit : ∀ (a : Axis) (v : ℚ) (c : Nat),
      ((⟨id, .AxisChanged a v c⟩ : Event) ∈ compare_state id g pg ↔
        (⟨id, .AxisChanged a v c⟩ : Event) ∈ axisPart id g pg) := by
    intro a v c
    unfold compare_state
    rw [List.mem_append]
    constructor
    · intro h
      rcases h with h | h
      · exact h
      · exact absurd h (hnb a v c)
    · exact Or.inl
  refine ⟨?_, ?_, ?_, ?_, ?_, ?_⟩ <;>
    simp [hsplit, axisPart, List.mem_append, mem_ite_singleton]

/- C5 -/

/-- C5 counterexample: with a left-trigger change, a left-stick X change,
and the South and D-Pad-Up buttons newly pressed, the differ emits
LeftTrigger2 before LeftStickX and DPadUp before South, although the
declared `AXES` table lists LeftStickX before LeftTrigger2 and the declared
`BUTTONS` table lists South before DPadUp — so the emission order is not
the table-declared order. -/
theorem c5_counterexample :
    compare_state 0 gMixed zeroPad =
      [⟨0, .AxisChanged .LeftTrigger2 (triggerValue 100) AXIS_LT2⟩,
       ⟨0, .AxisChanged .LeftStickX (normalize 1000) AXIS_LSTICKX⟩,
       ⟨0, .ButtonPressed .DPadUp BTN_DPAD_UP⟩,
       ⟨0, .ButtonPressed .South BTN_SOUTH⟩]
    ∧ AXES.indexOf AXIS_LSTICKX < AXES.indexOf AXIS_LT2
    ∧ BUTTONS.indexOf BTN_SOUTH < BUTTONS.indexOf BTN_DPAD_UP :=
  ⟨by rfl, by decide, by decide⟩

/-- C5 amended: every `compare_state` output is all its axis-change events
followed by all its button events, but within each class the order is the
source's hard-coded comparison order — axes as LeftTrigger2, RightTrigger2,
LeftStickX, LeftStickY, RightStickX, RightStickY and buttons as the D-Pad,
Start, Select, thumb, shoulder, A, B, X, Y sequence — not the order the
codes appear in the declared `AXES` and `BUTTONS` tables. -/
theorem c5_axes_before_buttons_fixed_order (id : Nat) (g pg : XGamepad) :
    compare_state id g pg =
        (compare_state id g pg).filter isAxisEv ++
          (compare_state id g pg).filter isButtonEv
    ∧ List.Sublist (((compare_state id g pg).filter isAxisEv).map evCode)
        [some AXIS_LT2, some AXIS_RT2, some AXIS_LSTICKX, some AXIS_LSTICKY,
          some AXIS_RSTICKX, some AXIS_RSTICKY]
    ∧ List.Sublist (((compare_state id g pg).filter isButtonEv).map evCode)
        [some BTN_DPAD_UP, some BTN_DPAD_DOWN, some BTN_DPAD_LEFT,
          some BTN_DPAD_RIGHT, some BTN_START, some BTN_SELECT,
          some BTN_LTHUMB, some BTN_RTHUMB, some BTN_LT, some BTN_RT,
          some BTN_SOUTH, some BTN_EAST, some BTN_WEST, some BTN_NORTH] := by
  refine ⟨?_, ?_, ?_⟩
  · rw [compare_state_filter_axis, compare_state_filter_button]
    rfl
  · rw [compare_state_filter_axis]
    exact axisPart_code_sublist id g pg
  · rw [compare_state_filter_button]
    exact flatMap_btnSeg_code_sublist BUTTON_BINDINGS id g.wButtons pg.wButtons

/- C7 -/

/-- C7: the number of button events one diff emits equals the number of
button bindings whose single mask bit differs between the two bitmasks;
every emitted button event carries the code of a binding whose bit differs
(so unchanged buttons never appear); and diffing a snapshot against itself
emits no events at all. -/
theorem c7_button_diff_count (id : Nat) (g pg : XGamepad) :
    ((compare_state id g pg).filter isButtonEv).length =
        (BUTTON_BINDINGS.filter
          (fun t => !is_mask_eq g.wButtons pg.wButtons t.1)).length
    ∧ (∀ e ∈ compare_state id g pg, isButtonEv e = true →
        ∃ t ∈ BUTTON_BINDINGS, evCode e = some t.2.2 ∧
          is_mask_eq g.wButtons pg.wButtons t.1 = false)
    ∧ compare_state id g g = [] := by
  refine ⟨?_, ?_, compare_state_self id g⟩
  · rw [compare_state_filter_button]
    exact buttonPart_length id g.wButtons pg.wButtons
  · intro e he hb
    unfold compare_state at he
    rcases List.mem_append.mp he with ha | hbp
    · rw [isAxis_not_isButton (axisPart_isAxis ha)] at hb
      cases hb
    · obtain ⟨t, ht, hcase, hm⟩ := buttonPart_mem hbp
      refine ⟨t, ht, ?_, hm⟩
      rcases hcase with h2 | h2 <;> subst h2 <;> rfl

/-- C7 witness: instantiating the count law for a press of the South
button against the zero snapshot. -/
theorem c7_witness :
    ((compare_state 0 gSouth zeroPad).filter isButtonEv).length =
        (BUTTON_BINDINGS.filter
          (fun t => !is_mask_eq gSouth.wButtons zeroPad.wButtons t.1)).length
    ∧ (∃ t ∈ BUTTON_BINDINGS,
        evCode ⟨0, .ButtonPressed .South BTN_SOUTH⟩ = some t.2.2 ∧
          is_mask_eq gSouth.wButtons zeroPad.wButtons t.1 = false)
    ∧ compare_state 0 gSouth gSouth = [] := by
  have h := c7_button_diff_count 0 gSouth zeroPad
  exact ⟨h.1,
    h.2.1 ⟨0, .ButtonPressed .South BTN_SOUTH⟩ (by decide) (by rfl), h.2.2⟩

/- C10 -/

/-- C10: the capability list `BUTTONS` advertises `BTN_MODE`, yet no event
`compare_state` ever emits is a button event carrying the Mode button or
the `BTN_MODE` native code. -/
theorem c10_mode_never_emitted :
    BTN_MODE ∈ BUTTONS
    ∧ (∀ (id : Nat) (g pg : XGamepad), ∀ e ∈ compare_state id g pg,
        ∀ (b : Button) (c : Nat),
          (e.event = .ButtonPressed b c ∨ e.event = .ButtonReleased b c) →
          b ≠ .Mode ∧ c ≠ BTN_MODE) := by
  refine ⟨by decide, ?_⟩
  intro id g pg e he b c hbc
  unfold compare_state at he
  have hbinding : ∀ t ∈ BUTTON_BINDINGS,
      t.2.1 ≠ Button.Mode ∧ t.2.2 ≠ BTN_MODE := by decide
  rcases List.mem_append.mp he with ha | hb2
  · rcases axisPart_mem ha with ⟨_, rfl⟩ | ⟨_, rfl⟩ | ⟨_, rfl⟩ | ⟨_, rfl⟩ |
      ⟨_, rfl⟩ | ⟨_, rfl⟩ <;> rcases hbc with h | h <;> simp at h
  · obtain ⟨t, ht, h2 | h2, _⟩ := buttonPart_mem hb2 <;> subst h2 <;>
      rcases hbc with h | h <;> simp at h <;>
      obtain ⟨rfl, rfl⟩ := h <;> exact hbinding t ht

/-- C10 witness: the law applied to an actual emitted event (South press),
together with the capability-list fact. -/
theorem c10_witness :
    BTN_MODE ∈ BUTTONS ∧ Button.South ≠ Button.Mode ∧ BTN_SOUTH ≠ BTN_MODE := by
  have h := c10_mode_never_emitted
  exact ⟨h.1, h.2 0 gSouth zeroPad ⟨0, .ButtonPressed .South BTN_SOUTH⟩
    (by decide) Button.South BTN_SOUTH (Or.inl rfl)⟩

/- C2 -/

theorem compare_state_filter_conn (id : Nat) (g pg : XGamepad) :
    (compare_state id g pg).filter isConnectedEv = [] :=
  List.filter_eq_nil_iff.mpr
    (fun _ he => by simp [compare_state_not_connected he])

/-- C2 counterexample: in the very cycle in which slot 0 transitions to
Connected (its query succeeds with packet number 1 while it was not
connected), the differ IS run against the newly obtained snapshot — the
cycle's output is the `Connected` event immediately followed by the diff's
`ButtonPressed` event, and the diff-invocation trace is nonempty. -/
theorem c2_counterexample :
    initLoop.connected.getD 0 false = false
    ∧ (cycle qConnectSouth initLoop).events =
        [⟨0, .Connected⟩, ⟨0, .ButtonPressed .South BTN_SOUTH⟩]
    ∧ (cycle qConnectSouth initLoop).diffCalls = [(0, gSouth, zeroState.Gamepad)] := by
  decide

/-- C2 amended: when a slot's query succeeds while it is not connected,
exactly one `Connected` event is emitted (and it comes first), but the
differ additionally runs in that same cycle whenever the new state's packet
number differs from the stored `prev_state`'s packet number — diffing the
new snapshot against whatever `prev_state` holds — and only in that case
does the snapshot become the new baseline. -/
theorem c2_connect_transition (id : Nat) (s prev : XState) :
    (slotStep id (.success s) false prev).conn = true
    ∧ (slotStep id (.success s) false prev).events.filter isConnectedEv =
        [⟨id, .Connected⟩]
    ∧ (slotStep id (.success s) false prev).events.head? =
        some ⟨id, .Connected⟩
    ∧ (slotStep id (.success s) false prev).diffCalls =
        (if s.dwPacketNumber = prev.dwPacketNumber then []
         else [(id, s.Gamepad, prev.Gamepad)])
    ∧ (slotStep id (.success s) false prev).prev =
        (if s.dwPacketNumber = prev.dwPacketNumber then prev else s) := by
  by_cases hp : s.dwPacketNumber = prev.dwPacketNumber <;>
    simp [slotStep, hp, compare_state_filter_conn, isConnectedEv]

/- C3 -/

/-- C3 failing run: one cycle in which slots 0 and 1 both connect and
deliver snapshots.  The polling thread keeps a single `prev_state` shared
by all four slots, so the differ for slot 1 compares slot 1's snapshot
against `gSouth` — the snapshot recorded for slot 0, never one of slot 1's
— and consequently emits a spurious `ButtonReleased South` for slot 1. -/
theorem c3_prev_state_shared :
    (cycle qTwoPads initLoop).diffCalls =
        [(0, gSouth, zeroState.Gamepad), (1, gEast, gSouth)]
    ∧ (cycle qTwoPads initLoop).events =
        [⟨0, .Connected⟩, ⟨0, .ButtonPressed .South BTN_SOUTH⟩,
         ⟨1, .Connected⟩, ⟨1, .ButtonReleased .South BTN_SOUTH⟩,
         ⟨1, .ButtonPressed .East BTN_EAST⟩]
    ∧ gSouth ≠ gEast := by
  decide

/- C4 -/

/-- C4 counterexample: on the windows backend the shared placeholder
returned for the out-of-range index 7 does have status `NotObserved` and a
nil uuid, but its name is "Xbox Controller" (not the empty string) and it
reports force feedback as supported (not false). -/
theorem c4_counterexample :
    ((WinGilrs.new (fun _ => false)).gamepad 7).status = .NotObserved
    ∧ ((WinGilrs.new (fun _ => false)).gamepad 7).inner.uuid = 0
    ∧ ((WinGilrs.new (fun _ => false)).gamepad 7).inner.name = "Xbox Controller"
    ∧ ((WinGilrs.new (fun _ => false)).gamepad 7).inner.name ≠ ""
    ∧ ((WinGilrs.new (fun _ => false)).gamepad 7).inner.is_ff_supported = true := by
  refine ⟨rfl, rfl, rfl, ?_, rfl⟩
  decide

/-- C4 amended: every out-of-range index resolves to the one shared
placeholder handle with status `NotObserved` and nil uuid; on the stub
backend that placeholder has empty name, nil uuid, no force feedback and
zero effect slots, but on the windows backend its name is "Xbox
Controller" and force feedback is reported supported. -/
theorem c4_placeholder (probe : Nat → Bool) (id : Nat) (h : 4 ≤ id) :
    (WinGilrs.new probe).gamepad id = ⟨WGamepad.none, .NotObserved⟩
    ∧ ((WinGilrs.new probe).gamepad id).status = .NotObserved
    ∧ ((WinGilrs.new probe).gamepad id).inner.uuid = 0
    ∧ ((WinGilrs.new probe).gamepad id).inner.name = "Xbox Controller"
    ∧ ((WinGilrs.new probe).gamepad id).inner.is_ff_supported = true
    ∧ (∀ j : Nat, DGilrs.new.gamepad j = ⟨DGamepad.none, .NotObserved⟩
        ∧ (DGilrs.new.gamepad j).inner.name = ""
        ∧ (DGilrs.new.gamepad j).inner.uuid = 0
        ∧ (DGilrs.new.gamepad j).inner.is_ff_supported = false
        ∧ (DGilrs.new.gamepad j).inner.max_ff_effects = 0) := by
  have hnone : (WinGilrs.new probe).gamepads[id]? = none := by
    apply List.getElem?_eq_none
    simpa [WinGilrs.new] using h
  have hmain : (WinGilrs.new probe).gamepad id = ⟨WGamepad.none, .NotObserved⟩ := by
    unfold WinGilrs.gamepad
    rw [hnone]
    rfl
  refine ⟨hmain, ?_, ?_, ?_, ?_, fun j => ⟨rfl, rfl, rfl, rfl, rfl⟩⟩ <;>
    rw [hmain] <;> rfl

/-- C4 witness: the placeholder law at index 7 with all probes failing, and
the stub-backend law at index 0. -/
theorem c4_witness :
    (WinGilrs.new (fun _ => false)).gamepad 7 = ⟨WGamepad.none, .NotObserved⟩
    ∧ (DGilrs.new.gamepad 0).inner.name = "" := by
  have h := c4_placeholder (fun _ => false) 7 (by decide)
  exact ⟨h.1, (h.2.2.2.2.2 0).2.1⟩

/- C6 -/

/-- C6: `normalize` divides by 32767 for nonnegative readings and by 32768
for negative ones, stays inside `[-1, 1]` on the whole i16 range and maps
the extremes to exactly ±1; the trigger value `(raw - 0) / (255 - 0)`
stays inside `[0, 1]` on the u8 range and maps the extremes to exactly 0
and 1. -/
theorem c6_normalize_bounds :
    (∀ v : Int, v < 0 → normalize v = (v : ℚ) / 32768)
    ∧ (∀ v : Int, 0 ≤ v → normalize v = (v : ℚ) / 32767)
    ∧ (∀ v : Int, -32768 ≤ v → v ≤ 32767 →
        -1 ≤ normalize v ∧ normalize v ≤ 1)
    ∧ normalize (-32768) = -1
    ∧ normalize 32767 = 1
    ∧ (∀ r : Nat, r ≤ 255 → 0 ≤ triggerValue r ∧ triggerValue r ≤ 1)
    ∧ triggerValue 0 = 0
    ∧ triggerValue 255 = 1 := by
  refine ⟨?_, ?_, ?_, ?_, ?_, ?_, ?_, ?_⟩
  · intro v hv
    rw [normalize, if_pos hv]
  · intro v hv
    rw [normalize, if_neg (not_lt.mpr hv)]
  · intro v h1 h2
    by_cases hv : v < 0
    · rw [normalize, if_pos hv]
      constructor
      · rw [le_div_iff₀ (by norm_num : (0 : ℚ) < 32768)]
        have : (-32768 : ℚ) ≤ (v : ℚ) := by exact_mod_cast h1
        linarith
      · rw [div_le_one (by norm_num : (0 : ℚ) < 32768)]
        have : (v : ℚ) < 0 := by exact_mod_cast hv
        linarith
    · rw [normalize, if_neg hv]
      push_neg at hv
      constructor
      · rw [le_div_iff₀ (by norm_num : (0 : ℚ) < 32767)]
        have : (0 : ℚ) ≤ (v : ℚ) := by exact_mod_cast hv
        linarith
      · rw [div_le_one (by norm_num : (0 : ℚ) < 32767)]
        exact_mod_cast h2
  · norm_num [normalize]
  · norm_num [normalize]
  · intro r hr
    constructor
    · exact div_nonneg (by exact_mod_cast Nat.zero_le r) (by norm_num)
    · rw [triggerValue, div_le_one (by norm_num : (0 : ℚ) < 255)]
      exact_mod_cast hr
  · norm_num [triggerValue]
  · norm_num [triggerValue]

/-- C6 witness: the normalization laws at concrete readings. -/
theorem c6_witness :
    normalize (-5) = ((-5 : Int) : ℚ) / 32768
    ∧ normalize 6 = ((6 : Int) : ℚ) / 32767
    ∧ (-1 ≤ normalize (-5) ∧ normalize (-5) ≤ 1)
    ∧ (0 ≤ triggerValue 7 ∧ triggerValue 7 ≤ 1) := by
  have h := c6_normalize_bounds
  exact ⟨h.1 (-5) (by norm_num), h.2.1 6 (by norm_num),
    h.2.2.1 (-5) (by norm_num) (by norm_num),
    h.2.2.2.2.2.1 7 (by norm_num)⟩

/- C8 -/

/-- C8: a query outcome that is neither success nor device-not-connected
produces no event, no diff and no status change; device-not-connected
while the slot is not connected also produces nothing; only
device-not-connected while connected emits one `Disconnected` event and
flips the flag. -/
theorem c8_error_handling :
    (∀ (id : Nat) (conn : Bool) (prev : XState),
      slotStep id .transientError conn prev = ⟨conn, prev, [], []⟩)
    ∧ (∀ (id : Nat) (prev : XState),
      slotStep id .notConnected false prev = ⟨false, prev, [], []⟩)
    ∧ (∀ (id : Nat) (prev : XState),
      slotStep id .notConnected true prev =
        ⟨false, prev, [⟨id, .Disconnected⟩], []⟩) :=
  ⟨fun _ _ _ => rfl, fun _ _ => rfl, fun _ _ => rfl⟩

/- C9 -/

/-- C9: draining the queue yields the whole prelude followed by the
channel's events (so no channel event is returned while the prelude is
nonempty); the prelude's slot indices are strictly increasing, and every
prelude event is a `Connected` event for a slot whose probe flag is set. -/
theorem c9_prelude_first :
    (∀ (connected : List Bool) (rx : List Event),
      drainN (connected.length + rx.length) ⟨preludeEvents connected, rx⟩ =
        preludeEvents connected ++ rx)
    ∧ (∀ connected : List Bool,
        (preludeEvents connected).Pairwise (fun a b => a.id < b.id))
    ∧ (∀ connected : List Bool,
        (preludeEvents connected).all
          (fun e => decide (e.event = .Connected) &&
            connected.getD e.id false) = true) := by
  refine ⟨?_, preludeEvents_pairwise, ?_⟩
  · intro connected rx
    exact drainN_eq_append _ _ _
      (Nat.add_le_add_right (preludeEvents_length_le connected) _)
  · intro connected
    rw [List.all_eq_true]
    intro e he
    unfold preludeEvents at he
    obtain ⟨p, hp, rfl⟩ := List.mem_map.mp he
    have hpf := List.mem_filter.mp hp
    have hget : connected[p.1]? = some p.2 :=
      List.mem_enum_iff_getElem?.mp hpf.1
    simp [List.getD_eq_getElem?_getD, hget, hpf.2]

end XInput
